import Mathlib

/-!
Verification of the transport adapter of `inventree_mcp_plugin`
(`src/inventree_mcp_plugin/mcp_transport.py`), the Django view that bridges a
synchronous web request into one exchange of the asynchronous MCP protocol
engine.  The engine itself (`StreamableHTTPSessionManager`) is an external
collaborator: its observable behaviour during one exchange is modelled by the
`EngineOutcome` type (the list of ASGI messages it pushes into the outbound
`send` channel, or the exception / timeout it produces), and object identity
of the per-request session manager and event loop is modelled by a fresh-id
counter threaded through `dispatch`.  Python byte strings are `List Nat`
(one entry per byte), latin-1 encoding is byte = code point, and Python
exceptions are `Except PyExc`.
-/

namespace McpTransport

/-- Python byte string: one `Nat` (0..255 for real bytes) per byte. -/
abbrev ByteStr := List Nat

/-- Python `str.encode("latin-1")`: one byte per character, the code point. -/
def latin1Encode (s : String) : ByteStr :=
  s.data.map Char.toNat

/-- Python `str.lower()`, character by character (identical to `String.toLower`;
spelled out so that it evaluates by kernel reduction). -/
def pyLower (s : String) : String :=
  ⟨s.data.map Char.toLower⟩

/-- Python `bytes.decode("latin-1")`: each byte back to the character with that
code point. -/
def latin1Decode (bs : ByteStr) : String :=
  ⟨bs.map Char.ofNat⟩

/-- Python `str.encode("utf-8")`. -/
def utf8Encode (s : String) : ByteStr :=
  s.toUTF8.toList.map UInt8.toNat

/-- A Python exception value; only its message is observable to the model. -/
inductive PyExc where
  | exc (message : String)
deriving DecidableEq, Repr

/-- The authenticated principal attached to a Django request
(`request.user`); `is_authenticated` is the flag populated by the auth
middleware. -/
structure UserModel where
  is_authenticated : Bool
deriving DecidableEq, Repr

/-- A Django `HttpRequest` as the transport adapter reads it.  `user := none`
models a request object that has no `user` attribute at all (middleware not
run), so that `hasattr(request, "user")` is `false`. -/
structure HttpRequest where
  method : String
  path : String
  full_path : String
  /-- `request.headers` in iteration order, names as Django reports them. -/
  headers : List (String × String)
  body : ByteStr
  query_string : String
  remote_addr : String
  host : String
  server_port : Nat
  is_secure : Bool
  user : Option UserModel
deriving DecidableEq, Repr

/-- Embedding of `_check_auth` (mcp_transport.py lines 45-52):
`hasattr(request, "user") and request.user.is_authenticated`. -/
def _check_auth (request : HttpRequest) : Bool :=
  match request.user with
  | none => false
  | some u => u.is_authenticated

/-- The ASGI scope dict built by `_build_asgi_scope` (lines 65-86). -/
structure AsgiScope where
  type : String
  http_version : String
  method : String
  headers : List (ByteStr × ByteStr)
  path : String
  raw_path : ByteStr
  query_string : ByteStr
  scheme : String
  client : String × Nat
  server : String × Nat
deriving DecidableEq, Repr

/-- Embedding of `_build_asgi_scope` (lines 65-86): header names lower-cased
and latin-1 encoded, the original content-length header dropped and one
recomputed from the actual body length appended. -/
def _build_asgi_scope (request : HttpRequest) : AsgiScope :=
  let body := request.body
  let headers : List (ByteStr × ByteStr) :=
    ((request.headers.filter (fun kv => (pyLower kv.1) ≠ "content-length")).map
      (fun kv => (latin1Encode (pyLower kv.1), latin1Encode kv.2)))
    ++ [(latin1Encode "content-length", latin1Encode (toString body.length))]
  { type := "http"
    http_version := "1.1"
    method := request.method
    headers := headers
    path := request.path
    raw_path := utf8Encode request.full_path
    query_string := latin1Encode request.query_string
    scheme := if request.is_secure then "https" else "http"
    client := (request.remote_addr, 0)
    server := (request.host, request.server_port) }

/-- One ASGI message delivered by the engine to the `send` closure
(lines 121-126).  `start` carries `message["status"]` and
`message.get("headers", [])`; `body` carries `message.get("body", b"")`;
`other` is any message whose `type` string is neither of the two the closure
tests for, which the closure ignores. -/
inductive AsgiMessage where
  | start (status : Nat) (headers : List (ByteStr × ByteStr))
  | body (chunk : ByteStr)
  | other (typeName : String)
deriving DecidableEq, Repr

/-- The two request-scoped accumulators owned by `_handle_mcp_request`
(lines 118-119): the `response_started` dict (empty = `none`) and the
`response_body` bytearray. -/
structure SendAccum where
  response_started : Option (Nat × List (ByteStr × ByteStr)) := none
  response_body : ByteStr := []
deriving DecidableEq, Repr

/-- Embedding of the `send` closure (lines 121-126).  A start message assigns
`response_started["status"]` and `response_started["headers"]`
unconditionally (dict item assignment overwrites), a body message extends the
bytearray, anything else is ignored. -/
def send (acc : SendAccum) (message : AsgiMessage) : SendAccum :=
  match message with
  | .start status headers => { acc with response_started := some (status, headers) }
  | .body chunk => { acc with response_body := acc.response_body ++ chunk }
  | .other _ => acc

/-- Spec-level view of the start events of an exchange: the status/header pair
of the last `http.response.start` message, if any. -/
def lastStart : List AsgiMessage → Option (Nat × List (ByteStr × ByteStr))
  | [] => none
  | m :: rest =>
    match lastStart rest with
    | some p => some p
    | none =>
      match m with
      | .start status headers => some (status, headers)
      | _ => none

/-- Spec-level view of the body events of an exchange: all
`http.response.body` payloads concatenated in arrival order. -/
def bodyConcat : List AsgiMessage → ByteStr
  | [] => []
  | .body chunk :: rest => chunk ++ bodyConcat rest
  | .start _ _ :: rest => bodyConcat rest
  | .other _ :: rest => bodyConcat rest

/-- The JSON document `JsonResponse` serialises on the three adapter error
paths: `{"jsonrpc": ..., "error": {"code": ..., "message": ...}, "id": ...}`
with `id` always `None` in the source. -/
structure JsonRpcErrorBody where
  jsonrpc : String
  code : Int
  message : String
  id : Option Int
deriving DecidableEq, Repr

/-- Serialisation of the error envelope as `JsonResponse` would emit it
(key order as in the source dict literals). -/
def renderErrorBody (e : JsonRpcErrorBody) : String :=
  "\x7b\"jsonrpc\": \"" ++ e.jsonrpc ++ "\", \"error\": \x7b\"code\": "
    ++ toString e.code ++ ", \"message\": \"" ++ e.message
    ++ "\"\x7d, \"id\": " ++ (match e.id with
        | none => "null"
        | some n => toString n) ++ "\x7d"

/-- Body of a Django response: raw bytes for the engine-produced
`HttpResponse`, a JSON error envelope for the three `JsonResponse` paths. -/
inductive ResponseBody where
  | bytes (bs : ByteStr)
  | jsonError (e : JsonRpcErrorBody)
deriving DecidableEq, Repr

/-- A Django response as the adapter returns it: status, body, and the
header map. -/
structure WebResponse where
  status : Nat
  body : ResponseBody
  headers : List (String × String)
deriving DecidableEq, Repr

/-- Django `HttpResponse.__setitem__`: case-insensitive on the header name;
an existing entry is replaced in place (keeping its position, taking the new
spelling of the name), otherwise the pair is appended. -/
def setHeader (hs : List (String × String)) (k v : String) : List (String × String) :=
  if hs.any (fun kv => pyLower kv.1 = pyLower k) then
    hs.map (fun kv => if pyLower kv.1 = pyLower k then (k, v) else kv)
  else
    hs ++ [(k, v)]

/-- The default header set of a freshly constructed Django `HttpResponse`
with no explicit content type. -/
def httpResponseDefaultHeaders : List (String × String) :=
  [("Content-Type", "text/html; charset=utf-8")]

/-- The header set of a Django `JsonResponse`. -/
def jsonResponseHeaders : List (String × String) :=
  [("Content-Type", "application/json")]

/-- One asyncio task pending on the per-request loop when the `finally`
block runs.  `cancelled` records that `task.cancel()` was called, `awaited`
that the drain `run_until_complete(gather(...))` completed over it, and
`raisesOnDrain` models a task whose cancellation makes the drain raise. -/
structure TaskState where
  cancelled : Bool := false
  awaited : Bool := false
  raisesOnDrain : Bool := false
deriving DecidableEq, Repr

/-- The per-request event loop as the `finally` block sees it. -/
structure LoopState where
  tasks : List TaskState
  closed : Bool := false
  closeCount : Nat := 0
deriving DecidableEq, Repr

/-- Model of `loop.run_until_complete(asyncio.gather(*pending,
return_exceptions=True))` over already-cancelled tasks: it may raise (any
task flagged `raisesOnDrain`), otherwise it awaits every task. -/
def gatherCancelled (ts : List TaskState) : Except PyExc (List TaskState) :=
  if ts.any (fun t => t.raisesOnDrain) then
    .error (.exc "cancellation raised")
  else
    .ok (ts.map (fun t => { t with awaited := true }))

/-- Embedding of `_cancel_pending_tasks` (lines 89-101): early return when no
task is pending, else cancel each task and drain them, with any exception
from the drain suppressed (`contextlib.suppress(Exception)`). -/
def _cancel_pending_tasks (loop : LoopState) : LoopState :=
  if loop.tasks.isEmpty then
    loop
  else
    match gatherCancelled (loop.tasks.map (fun t => { t with cancelled := true })) with
    | .ok done => { loop with tasks := done }
    | .error _ => { loop with tasks := loop.tasks.map (fun t => { t with cancelled := true }) }

/-- `loop.close()` (line 211). -/
def closeLoop (loop : LoopState) : LoopState :=
  { loop with closed := true, closeCount := loop.closeCount + 1 }

/-- The observable behaviour of one engine exchange
(`session_manager.handle_request` run under `asyncio.wait_for`): it either
completes after pushing `events` into the send channel, raises an exception,
or fails to finish within the 60 second budget (`hangs`, carrying whatever
events it managed to push before the timeout fired). -/
inductive EngineOutcome where
  | completes (events : List AsgiMessage)
  | raises (excMessage : String)
  | hangs (events : List AsgiMessage)
deriving DecidableEq, Repr

deriving instance DecidableEq for Except

/-- Everything outside the adapter that one `MCPView.dispatch` call can
observe: the plugin-registry lookup (`none` = `registry.get_plugin` returned
no plugin), the outcome of `plugin.get_setting("REQUIRE_AUTH")` (which may
raise), the request, the engine behaviour, and the tasks still pending on the
per-request loop when the `finally` block runs. -/
structure DispatchEnv where
  plugin : Option (Except PyExc Bool)
  request : HttpRequest
  engine : EngineOutcome
  pendingAfter : List TaskState
deriving DecidableEq, Repr

/-- Lines 151-155 of `MCPView.dispatch`: `require_auth = True` as the safe
default, overwritten by `plugin.get_setting("REQUIRE_AUTH")` only when a
plugin instance exists and the read does not raise
(`contextlib.suppress(Exception)`). -/
def readRequireAuth (plugin : Option (Except PyExc Bool)) : Bool :=
  match plugin with
  | none => true
  | some (.ok b) => b
  | some (.error _) => true

/-- The 401 envelope of lines 158-168. -/
def authErrorResponse : WebResponse :=
  { status := 401
    body := .jsonError
      { jsonrpc := "2.0"
        code := -32000
        message := "Authentication required. Provide a valid Token, Bearer, or Basic credential."
        id := none }
    headers := jsonResponseHeaders }

/-- The 504 envelope of lines 185-195 (the f-string renders 60.0 with no
decimals, hence "60s"). -/
def timeoutErrorResponse : WebResponse :=
  { status := 504
    body := .jsonError
      { jsonrpc := "2.0"
        code := -32000
        message := "Request timed out after 60s"
        id := none }
    headers := jsonResponseHeaders }

/-- The 500 envelope of lines 198-208. -/
def internalErrorResponse : WebResponse :=
  { status := 500
    body := .jsonError
      { jsonrpc := "2.0"
        code := -32603
        message := "Internal server error"
        id := none }
    headers := jsonResponseHeaders }

/-- One call of the `receive` closure (lines 111-116): it closes over the
request body and returns a fresh dict with the same contents on every await;
`callIndex` distinguishes the successive awaits. -/
structure ReceiveMessage where
  type : String
  body : ByteStr
  more_body : Bool
deriving DecidableEq, Repr

/-- The `receive` closure handed to the engine for a given request. -/
def receiveClosure (request : HttpRequest) : Nat → ReceiveMessage :=
  fun _callIndex =>
    { type := "http.request"
      body := request.body
      more_body := false }

/-- Response assembly of `_handle_mcp_request` (lines 128-138) once the
engine has completed and the accumulators are filled: status from
`response_started.get("status", 500)`, raw body bytes, and each accumulated
header latin-1 decoded and set on the `HttpResponse`. -/
def assembleResponse (acc : SendAccum) : WebResponse :=
  let status := (acc.response_started.map Prod.fst).getD 500
  let startHeaders := (acc.response_started.map Prod.snd).getD []
  let headers := startHeaders.foldl
    (fun hs kv => setHeader hs (latin1Decode kv.1) (latin1Decode kv.2))
    httpResponseDefaultHeaders
  { status := status
    body := .bytes acc.response_body
    headers := headers }

/-- Embedding of `_handle_mcp_request` (lines 104-138) for an exchange that
completes: fold the engine events through the `send` closure and assemble the
Django response. -/
def _handle_mcp_request (events : List AsgiMessage) : WebResponse :=
  assembleResponse (events.foldl send {})

/-- What one `MCPView.dispatch` call produced.  `sessionId`/`loopId` are the
fresh-allocation identities of the `StreamableHTTPSessionManager` built by
`_new_session_manager` and of the `asyncio.new_event_loop()` loop; `none`
means the object was never constructed.  `loopFinal` is the loop state after
the `finally` block. -/
structure DispatchResult where
  response : WebResponse
  sessionId : Option Nat
  loopId : Option Nat
  loopFinal : Option LoopState
deriving DecidableEq, Repr

/-- Embedding of `MCPView.dispatch` (lines 149-211).  `fresh` is the
allocation counter supplying object identities; the second component of the
result is the counter after the call.  The auth gate runs first and returns
the 401 envelope without constructing loop or session; otherwise the loop and
session are created, the exchange runs under `asyncio.wait_for` (60 s), a
`TimeoutError` is converted to the 504 envelope, any other exception to the
500 envelope, and the `finally` block cancels pending tasks and closes the
loop on every path. -/
def dispatch (fresh : Nat) (env : DispatchEnv) : DispatchResult × Nat :=
  let require_auth := readRequireAuth env.plugin
  if require_auth && !(_check_auth env.request) then
    ({ response := authErrorResponse
       sessionId := none
       loopId := none
       loopFinal := none }, fresh)
  else
    let loopId := fresh
    let sessionId := fresh + 1
    let response :=
      match env.engine with
      | .completes events => _handle_mcp_request events
      | .raises _ => internalErrorResponse
      | .hangs _ => timeoutErrorResponse
    let loopAtFinally : LoopState := { tasks := env.pendingAfter }
    ({ response := response
       sessionId := some sessionId
       loopId := some loopId
       loopFinal := some (closeLoop (_cancel_pending_tasks loopAtFinally)) }, fresh + 2)

/-- Sequential handling of a list of requests by one worker process: the only
state threaded from one request to the next is the allocation counter — the
module keeps no session, loop, channel or accumulator between calls
(its only globals are the read-only tool registry, the logger and the
timeout constant). -/
def handleSequence (fresh : Nat) : List DispatchEnv → List DispatchResult
  | [] => []
  | env :: rest =>
    let (r, freshNext) := dispatch fresh env
    r :: handleSequence freshNext rest

/-- Does `pat` start the list `s`? -/
def isStartOf : List Char → List Char → Bool
  | [], _ => true
  | _ :: _, [] => false
  | a :: as, b :: bs => a == b && isStartOf as bs

/-- Does `pat` occur contiguously anywhere in `s`? -/
def occursIn (pat : List Char) : List Char → Bool
  | [] => isStartOf pat []
  | b :: rest => isStartOf pat (b :: rest) || occursIn pat rest

/-- Python `pat in s` on strings: contiguous-substring containment. -/
def strContains (s pat : String) : Bool :=
  occursIn pat.data s.data

/-- The textual body of a Django response as sent on the wire: the raw bytes
latin-1 decoded for an `HttpResponse`, the serialised envelope for a
`JsonResponse`. -/
def responseBodyText (r : WebResponse) : String :=
  match r.body with
  | .bytes bs => latin1Decode bs
  | .jsonError e => renderErrorBody e

/-- The error envelope of a response, when its body is one. -/
def errorEnvelope (r : WebResponse) : Option JsonRpcErrorBody :=
  match r.body with
  | .jsonError e => some e
  | .bytes _ => none

/-- Sample authenticated request used by the concrete witnesses. -/
def sampleRequestAuthed : HttpRequest :=
  { method := "POST"
    path := "/mcp/"
    full_path := "/mcp/"
    headers := [("Content-Type", "application/json"), ("Content-Length", "2")]
    body := [123, 125]
    query_string := ""
    remote_addr := "127.0.0.1"
    host := "testserver"
    server_port := 80
    is_secure := false
    user := some { is_authenticated := true } }

/-- Sample request carrying an anonymous (unauthenticated) user. -/
def sampleRequestAnon : HttpRequest :=
  { sampleRequestAuthed with user := some { is_authenticated := false } }

/-- Sample request object with no `user` attribute at all. -/
def sampleRequestNoUser : HttpRequest :=
  { sampleRequestAuthed with user := none }

/-! Helper lemmas about characters, the latin-1 encoding, and the model
combinators; shared by several of the claim theorems below. -/

theorem char_toNat_inj {a b : Char} (h : a.toNat = b.toNat) : a = b := by
  have := congrArg Char.ofNat h
  simpa [Char.ofNat_toNat] using this

theorem toNat_ofNat_of_lt {n : Nat} (h : n < 55296) : (Char.ofNat n).toNat = n := by
  unfold Char.ofNat
  rw [dif_pos (Or.inl h)]
  simp [Char.ofNatAux, Char.toNat, UInt32.ofNat', UInt32.toNat]

theorem toLower_toNat_not_upper (c : Char) :
    ¬(65 ≤ (Char.toLower c).toNat ∧ (Char.toLower c).toNat ≤ 90) := by
  unfold Char.toLower
  by_cases h : c.toNat ≥ 65 ∧ c.toNat ≤ 90
  · rw [if_pos h, toNat_ofNat_of_lt (by omega)]
    omega
  · rw [if_neg h]
    omega

theorem latin1Encode_inj {s t : String} (h : latin1Encode s = latin1Encode t) :
    s = t := by
  have hdata : s.data = t.data :=
    (List.map_injective_iff.mpr fun a b hab => char_toNat_inj hab) h
  cases s; cases t
  exact congrArg String.mk hdata

theorem latin1Encode_length (s : String) : (latin1Encode s).length = s.length := by
  unfold latin1Encode
  rw [List.length_map]
  rfl

theorem latin1Encode_latin1Decode (bs : ByteStr) (h : ∀ b ∈ bs, b < 55296) :
    latin1Encode (latin1Decode bs) = bs := by
  unfold latin1Encode latin1Decode
  rw [show (String.mk (bs.map Char.ofNat)).data = bs.map Char.ofNat from rfl,
    List.map_map]
  rw [List.map_eq_map_iff.mpr ?_]
  · exact List.map_id bs
  · intro b hb
    exact toNat_ofNat_of_lt (h b hb)

theorem foldl_send_eq (events : List AsgiMessage) :
    ∀ acc : SendAccum,
      events.foldl send acc =
        { response_started := (lastStart events).elim acc.response_started some
          response_body := acc.response_body ++ bodyConcat events } := by
  induction events with
  | nil =>
    intro acc
    simp [lastStart, bodyConcat]
  | cons m rest ih =>
    intro acc
    rw [List.foldl_cons, ih]
    cases m with
    | start status headers =>
      cases h : lastStart rest with
      | none => simp [send, lastStart, bodyConcat, h]
      | some p => simp [send, lastStart, bodyConcat, h]
    | body chunk =>
      cases h : lastStart rest with
      | none => simp [send, lastStart, bodyConcat, h]
      | some p => simp [send, lastStart, bodyConcat, h]
    | other t =>
      cases h : lastStart rest with
      | none => simp [send, lastStart, bodyConcat, h]
      | some p => simp [send, lastStart, bodyConcat, h]

theorem dispatch_denied (fresh : Nat) (env : DispatchEnv)
    (hreq : readRequireAuth env.plugin = true)
    (hauth : _check_auth env.request = false) :
    dispatch fresh env =
      ({ response := authErrorResponse
         sessionId := none
         loopId := none
         loopFinal := none }, fresh) := by
  simp [dispatch, hreq, hauth]

theorem dispatch_not_denied (fresh : Nat) (env : DispatchEnv)
    (hallow : readRequireAuth env.plugin = false ∨ _check_auth env.request = true) :
    dispatch fresh env =
      ({ response :=
           match env.engine with
           | .completes events => _handle_mcp_request events
           | .raises _ => internalErrorResponse
           | .hangs _ => timeoutErrorResponse
         sessionId := some (fresh + 1)
         loopId := some fresh
         loopFinal := some (closeLoop (_cancel_pending_tasks { tasks := env.pendingAfter })) },
       fresh + 2) := by
  rcases hallow with h | h <;> simp [dispatch, h]

theorem mem_setHeader_self (hs : List (String × String)) (k v : String) :
    (k, v) ∈ setHeader hs k v := by
  unfold setHeader
  by_cases h : hs.any (fun kv => pyLower kv.1 = pyLower k)
  · rw [if_pos h]
    rcases List.any_eq_true.mp h with ⟨kv, hkv, hpred⟩
    refine List.mem_map.mpr ⟨kv, hkv, ?_⟩
    rw [if_pos (of_decide_eq_true hpred)]
  · rw [if_neg h]
    exact List.mem_append_right _ (List.mem_singleton.mpr rfl)

theorem mem_setHeader_of_ne (hs : List (String × String)) (k v k' v' : String)
    (hne : pyLower k' ≠ pyLower k) (hmem : (k', v') ∈ hs) :
    (k', v') ∈ setHeader hs k v := by
  unfold setHeader
  by_cases h : hs.any (fun kv => pyLower kv.1 = pyLower k)
  · rw [if_pos h]
    refine List.mem_map.mpr ⟨(k', v'), hmem, ?_⟩
    rw [if_neg hne]
  · rw [if_neg h]
    exact List.mem_append_left _ hmem

theorem mem_foldl_setHeader_preserved (pairs : List (String × String)) :
    ∀ init : List (String × String), ∀ kv : String × String,
      kv ∈ init → (∀ p ∈ pairs, pyLower kv.1 ≠ pyLower p.1) →
      kv ∈ pairs.foldl (fun hs p => setHeader hs p.1 p.2) init := by
  induction pairs with
  | nil =>
    intro init kv hmem _
    simpa using hmem
  | cons p rest ih =>
    intro init kv hmem hne
    rw [List.foldl_cons]
    exact ih _ kv
      (mem_setHeader_of_ne init p.1 p.2 kv.1 kv.2
        (hne p (List.mem_cons_self p rest)) hmem)
      (fun q hq => hne q (List.mem_cons_of_mem p hq))

theorem mem_foldl_setHeader (pairs : List (String × String))
    (hnodup : pairs.Pairwise (fun a b => pyLower a.1 ≠ pyLower b.1)) :
    ∀ init : List (String × String), ∀ kv ∈ pairs,
      kv ∈ pairs.foldl (fun hs p => setHeader hs p.1 p.2) init := by
  induction pairs with
  | nil =>
    intro init kv hmem
    simp at hmem
  | cons p rest ih =>
    intro init kv hmem
    rw [List.foldl_cons]
    rcases List.mem_cons.mp hmem with rfl | hmemRest
    · exact mem_foldl_setHeader_preserved rest _ kv
        (by simpa using mem_setHeader_self init kv.1 kv.2)
        (fun q hq => (List.pairwise_cons.mp hnodup).1 q hq)
    · exact ih (List.pairwise_cons.mp hnodup).2 _ kv hmemRest

theorem option_elim_none_some {α : Type} (o : Option α) :
    o.elim none some = o := by
  cases o <;> rfl

theorem dispatch_guard_cases (env : DispatchEnv) :
    (readRequireAuth env.plugin = true ∧ _check_auth env.request = false)
    ∨ (readRequireAuth env.plugin = false ∨ _check_auth env.request = true) := by
  by_cases h : _check_auth env.request = true
  · exact Or.inr (Or.inr h)
  · by_cases h2 : readRequireAuth env.plugin = true
    · exact Or.inl ⟨h2, by simpa using h⟩
    · exact Or.inr (Or.inl (by simpa using h2))

theorem cancel_tasks_closed (loop : LoopState) :
    (_cancel_pending_tasks loop).closed = loop.closed := by
  unfold _cancel_pending_tasks
  by_cases h : loop.tasks.isEmpty = true
  · rw [if_pos h]
  · rw [if_neg h]
    cases hg : gatherCancelled (loop.tasks.map fun t => { t with cancelled := true }) <;>
      rfl

theorem cancel_tasks_closeCount (loop : LoopState) :
    (_cancel_pending_tasks loop).closeCount = loop.closeCount := by
  unfold _cancel_pending_tasks
  by_cases h : loop.tasks.isEmpty = true
  · rw [if_pos h]
  · rw [if_neg h]
    cases hg : gatherCancelled (loop.tasks.map fun t => { t with cancelled := true }) <;>
      rfl

theorem gatherCancelled_ok_length {ts done : List TaskState}
    (hg : gatherCancelled ts = .ok done) : done.length = ts.length := by
  unfold gatherCancelled at hg
  by_cases h : ts.any (fun t => t.raisesOnDrain) = true
  · rw [if_pos h] at hg
    cases hg
  · rw [if_neg h] at hg
    cases hg
    simp

theorem gatherCancelled_ok_mem {ts done : List TaskState}
    (hg : gatherCancelled ts = .ok done) :
    ∀ t ∈ done, ∃ t0 ∈ ts, t = { t0 with awaited := true } := by
  unfold gatherCancelled at hg
  by_cases h : ts.any (fun t => t.raisesOnDrain) = true
  · rw [if_pos h] at hg
    cases hg
  · rw [if_neg h] at hg
    cases hg
    intro t ht
    rcases List.mem_map.mp ht with ⟨t0, ht0, rfl⟩
    exact ⟨t0, ht0, rfl⟩

theorem cancel_tasks_length (loop : LoopState) :
    (_cancel_pending_tasks loop).tasks.length = loop.tasks.length := by
  unfold _cancel_pending_tasks
  by_cases h : loop.tasks.isEmpty = true
  · rw [if_pos h]
  · rw [if_neg h]
    cases hg : gatherCancelled (loop.tasks.map fun t => { t with cancelled := true }) with
    | ok done =>
      have := gatherCancelled_ok_length hg
      simpa using this
    | error e =>
      simp

theorem cancel_tasks_cancelled (loop : LoopState) :
    ∀ t ∈ (_cancel_pending_tasks loop).tasks, t.cancelled = true := by
  unfold _cancel_pending_tasks
  by_cases h : loop.tasks.isEmpty = true
  · rw [if_pos h]
    rw [List.isEmpty_iff] at h
    rw [h]
    intro t ht
    simp at ht
  · rw [if_neg h]
    cases hg : gatherCancelled (loop.tasks.map fun t => { t with cancelled := true }) with
    | ok done =>
      intro t ht
      rcases gatherCancelled_ok_mem hg t ht with ⟨t1, ht1, rfl⟩
      rcases List.mem_map.mp ht1 with ⟨t0, _, rfl⟩
      rfl
    | error e =>
      intro t ht
      rcases List.mem_map.mp ht with ⟨t0, _, rfl⟩
      rfl

theorem cancel_tasks_awaited (loop : LoopState)
    (h : loop.tasks.all (fun t => !t.raisesOnDrain) = true) :
    ∀ t ∈ (_cancel_pending_tasks loop).tasks, t.awaited = true := by
  unfold _cancel_pending_tasks
  by_cases he : loop.tasks.isEmpty = true
  · rw [if_pos he]
    rw [List.isEmpty_iff] at he
    rw [he]
    intro t ht
    simp at ht
  · rw [if_neg he]
    have hany : ((loop.tasks.map fun t => { t with cancelled := true }).any
        (fun t => t.raisesOnDrain)) = false := by
      rw [List.any_map]
      rw [List.all_eq_true] at h
      rw [List.any_eq_false]
      intro t ht
      have := h t ht
      simp only [Function.comp]
      simpa using this
    have hg : gatherCancelled (loop.tasks.map fun t => { t with cancelled := true }) =
        .ok ((loop.tasks.map fun t => { t with cancelled := true }).map
          (fun t => { t with awaited := true })) := by
      unfold gatherCancelled
      rw [if_neg (by simp [hany])]
    rw [hg]
    intro t ht
    rcases List.mem_map.mp ht with ⟨t1, _, rfl⟩
    rfl

theorem cancel_tasks_empty (loop : LoopState) (h : loop.tasks = []) :
    _cancel_pending_tasks loop = loop := by
  unfold _cancel_pending_tasks
  rw [if_pos (by simp [h])]

theorem cancel_tasks_suppressed (loop : LoopState)
    (h : loop.tasks.any (fun t => t.raisesOnDrain) = true) :
    (_cancel_pending_tasks loop).tasks =
      loop.tasks.map (fun t => { t with cancelled := true }) := by
  have hne : ¬(loop.tasks.isEmpty = true) := by
    rcases List.any_eq_true.mp h with ⟨t, ht, _⟩
    intro hcontra
    rw [List.isEmpty_iff] at hcontra
    rw [hcontra] at ht
    simp at ht
  have hany : ((loop.tasks.map fun t => { t with cancelled := true }).any
      (fun t => t.raisesOnDrain)) = true := by
    rw [List.any_map]
    rcases List.any_eq_true.mp h with ⟨t, ht, hp⟩
    exact List.any_eq_true.mpr ⟨t, ht, hp⟩
  have hg : gatherCancelled (loop.tasks.map fun t => { t with cancelled := true }) =
      .error (.exc "cancellation raised") := by
    unfold gatherCancelled
    rw [if_pos hany]
  unfold _cancel_pending_tasks
  rw [if_neg hne, hg]

theorem dispatch_response_counter_free (n m : Nat) (env : DispatchEnv) :
    (dispatch n env).1.response = (dispatch m env).1.response := by
  rcases dispatch_guard_cases env with ⟨h1, h2⟩ | hallow
  · rw [dispatch_denied n env h1 h2, dispatch_denied m env h1 h2]
  · rw [dispatch_not_denied n env hallow, dispatch_not_denied m env hallow]

/-! The claim theorems. -/

/-- C1: the Protocol Engine is invoked iff the auth gate allows the request.
When the REQUIRE_AUTH setting reads true — including when the plugin is
missing or the settings read raises — an unauthenticated request gets back a
JSON response with HTTP status exactly 401, body `error.code` -32000 and
`id` null, and neither a session manager nor an event loop is ever
constructed; when the setting reads false the exchange proceeds (a session is
constructed) regardless of credential presence. -/
theorem C1_auth_gate (fresh : Nat) (env : DispatchEnv) (e : PyExc) :
    (readRequireAuth env.plugin = true → _check_auth env.request = false →
      ((dispatch fresh env).1.response.status = 401
        ∧ errorEnvelope (dispatch fresh env).1.response =
            some { jsonrpc := "2.0", code := -32000,
                   message := "Authentication required. Provide a valid Token, Bearer, or Basic credential.",
                   id := none }
        ∧ (dispatch fresh env).1.sessionId = none
        ∧ (dispatch fresh env).1.loopId = none))
    ∧ (readRequireAuth env.plugin = false →
        (dispatch fresh env).1.sessionId.isSome = true)
    ∧ readRequireAuth none = true
    ∧ readRequireAuth (some (.error e)) = true := by
  refine ⟨?_, ?_, rfl, rfl⟩
  · intro hreq hauth
    rw [dispatch_denied fresh env hreq hauth]
    exact ⟨rfl, rfl, rfl, rfl⟩
  · intro hfalse
    rw [dispatch_not_denied fresh env (Or.inl hfalse)]
    rfl

/-- Witness for C1 at concrete inputs: an anonymous request with the plugin
missing is denied with 401; a request with no credentials is served when the
setting reads false. -/
theorem C1_auth_gate_witness :
    (dispatch 0
      { plugin := none, request := sampleRequestAnon,
        engine := .completes [.start 200 []], pendingAfter := [] }).1.response.status = 401
    ∧ (dispatch 0
      { plugin := some (.ok false), request := sampleRequestNoUser,
        engine := .completes [.start 200 []], pendingAfter := [] }).1.sessionId.isSome = true :=
  ⟨((C1_auth_gate 0
      { plugin := none, request := sampleRequestAnon,
        engine := .completes [.start 200 []], pendingAfter := [] } (.exc "x")).1
      rfl (by decide)).1,
   (C1_auth_gate 0
      { plugin := some (.ok false), request := sampleRequestNoUser,
        engine := .completes [.start 200 []], pendingAfter := [] } (.exc "x")).2.1 rfl⟩

/-- C2: for every request whose exchange does not complete within the 60 s
budget, the adapter does not raise: it returns the JSON envelope with HTTP
status exactly 504, `error.code` -32000 and `id` null, the returned response
does not depend on any status or body the abandoned exchange may have
recorded through the outbound channel, and every task still pending on the
per-request loop is cancelled (and awaited when the drain does not raise)
before the loop is closed. -/
theorem C2_timeout_envelope (fresh : Nat) (env : DispatchEnv)
    (events : List AsgiMessage)
    (heng : env.engine = .hangs events)
    (hallow : readRequireAuth env.plugin = false ∨ _check_auth env.request = true) :
    (dispatch fresh env).1.response = timeoutErrorResponse
    ∧ (dispatch fresh env).1.response.status = 504
    ∧ errorEnvelope (dispatch fresh env).1.response =
        some { jsonrpc := "2.0", code := -32000,
               message := "Request timed out after 60s", id := none }
    ∧ (∀ eventsOther : List AsgiMessage,
        (dispatch fresh { env with engine := .hangs eventsOther }).1.response =
          (dispatch fresh env).1.response)
    ∧ (∃ l : LoopState, (dispatch fresh env).1.loopFinal = some l
        ∧ l.closed = true
        ∧ l.tasks.length = env.pendingAfter.length
        ∧ (∀ t ∈ l.tasks, t.cancelled = true)
        ∧ (env.pendingAfter.all (fun t => !t.raisesOnDrain) = true →
            ∀ t ∈ l.tasks, t.awaited = true)) := by
  have hd := dispatch_not_denied fresh env hallow
  have hresp : (dispatch fresh env).1.response = timeoutErrorResponse := by
    rw [hd, heng]
  refine ⟨hresp, by rw [hresp]; rfl, by rw [hresp]; rfl, ?_, ?_⟩
  · intro eventsOther
    have hd2 := dispatch_not_denied fresh { env with engine := .hangs eventsOther }
      (by simpa using hallow)
    rw [hd2, hresp]
  · refine ⟨closeLoop (_cancel_pending_tasks { tasks := env.pendingAfter }), ?_, rfl, ?_, ?_, ?_⟩
    · rw [hd]
    · show (_cancel_pending_tasks { tasks := env.pendingAfter }).tasks.length = _
      exact cancel_tasks_length { tasks := env.pendingAfter }
    · show ∀ t ∈ (_cancel_pending_tasks { tasks := env.pendingAfter }).tasks, _
      exact cancel_tasks_cancelled { tasks := env.pendingAfter }
    · intro hnoraise
      show ∀ t ∈ (_cancel_pending_tasks { tasks := env.pendingAfter }).tasks, _
      exact cancel_tasks_awaited { tasks := env.pendingAfter } hnoraise

/-- Witness for C2 at a concrete input: a hung exchange that already recorded
a 200 start event still yields 504, with the one pending task cancelled. -/
theorem C2_timeout_envelope_witness :
    (dispatch 7
      { plugin := some (.ok true), request := sampleRequestAuthed,
        engine := .hangs [.start 200 []],
        pendingAfter := [{ cancelled := false, awaited := false, raisesOnDrain := false }] }).1.response.status = 504 :=
  (C2_timeout_envelope 7
    { plugin := some (.ok true), request := sampleRequestAuthed,
      engine := .hangs [.start 200 []],
      pendingAfter := [{ cancelled := false, awaited := false, raisesOnDrain := false }] }
    [.start 200 []] rfl (Or.inr (by decide))).2.1

/-- C3: for every request whose exchange raises any exception other than a
timeout, the adapter catches it and returns the JSON envelope with HTTP
status exactly 500, body `error.code` -32603, the fixed message
"Internal server error" and `id` null; the response is a constant that does
not depend on the raised exception, so the exception message text never
appears in the response body (unless that text already occurs in the fixed
envelope itself). -/
theorem C3_internal_error (fresh : Nat) (env : DispatchEnv) (excMessage : String)
    (heng : env.engine = .raises excMessage)
    (hallow : readRequireAuth env.plugin = false ∨ _check_auth env.request = true) :
    (dispatch fresh env).1.response = internalErrorResponse
    ∧ (dispatch fresh env).1.response.status = 500
    ∧ errorEnvelope (dispatch fresh env).1.response =
        some { jsonrpc := "2.0", code := -32603,
               message := "Internal server error", id := none }
    ∧ (∀ m : String,
        (dispatch fresh { env with engine := .raises m }).1.response =
          (dispatch fresh env).1.response)
    ∧ (strContains (responseBodyText internalErrorResponse) excMessage = false →
        strContains (responseBodyText (dispatch fresh env).1.response) excMessage = false) := by
  have hd := dispatch_not_denied fresh env hallow
  have hresp : (dispatch fresh env).1.response = internalErrorResponse := by
    rw [hd, heng]
  refine ⟨hresp, by rw [hresp]; rfl, by rw [hresp]; rfl, ?_, ?_⟩
  · intro m
    have hd2 := dispatch_not_denied fresh { env with engine := .raises m }
      (by simpa using hallow)
    rw [hd2, hresp]
  · intro hfree
    rw [hresp]
    exact hfree

/-- Witness for C3 at a concrete input: an exchange raising an exception with
message "database exploded" yields 500, and that text does not occur in the
response body. -/
theorem C3_internal_error_witness :
    (dispatch 3
      { plugin := some (.ok true), request := sampleRequestAuthed,
        engine := .raises "database exploded", pendingAfter := [] }).1.response.status = 500
    ∧ strContains (responseBodyText
        (dispatch 3
          { plugin := some (.ok true), request := sampleRequestAuthed,
            engine := .raises "database exploded", pendingAfter := [] }).1.response)
        "database exploded" = false :=
  ⟨(C3_internal_error 3
      { plugin := some (.ok true), request := sampleRequestAuthed,
        engine := .raises "database exploded", pendingAfter := [] }
      "database exploded" rfl (Or.inr (by decide))).2.1,
   (C3_internal_error 3
      { plugin := some (.ok true), request := sampleRequestAuthed,
        engine := .raises "database exploded", pendingAfter := [] }
      "database exploded" rfl (Or.inr (by decide))).2.2.2.2 (by decide)⟩

/-- C9: the `receive` closure is replay-safe: every await — not only the
first — returns the same message, carrying the full request body,
`type` "http.request" and `more_body` false, as a total function (no
blocking, no exception). -/
theorem C9_receive_replay_safe (request : HttpRequest) (i j : Nat) :
    receiveClosure request i = receiveClosure request j
    ∧ (receiveClosure request i).type = "http.request"
    ∧ (receiveClosure request i).body = request.body
    ∧ (receiveClosure request i).more_body = false :=
  ⟨rfl, rfl, rfl, rfl⟩

/-- C10: `_check_auth` is total over arbitrary request objects: a request
lacking a `user` attribute yields false rather than an exception, the check
succeeds exactly when the attached user reports itself authenticated, and
whenever REQUIRE_AUTH reads true and a session was constructed, the request
carried an authenticated principal. -/
theorem C10_check_auth_total (request : HttpRequest) (fresh : Nat) (env : DispatchEnv) :
    (request.user = none → _check_auth request = false)
    ∧ (_check_auth request = true ↔
        ∃ u : UserModel, request.user = some u ∧ u.is_authenticated = true)
    ∧ (readRequireAuth env.plugin = true →
        (dispatch fresh env).1.sessionId.isSome = true →
        ∃ u : UserModel, env.request.user = some u ∧ u.is_authenticated = true) := by
  refine ⟨?_, ?_, ?_⟩
  · intro h
    simp [_check_auth, h]
  · constructor
    · intro h
      cases hu : request.user with
      | none => rw [_check_auth, hu] at h; cases h
      | some u =>
        refine ⟨u, rfl, ?_⟩
        rw [_check_auth, hu] at h
        exact h
    · rintro ⟨u, hu, hauth⟩
      rw [_check_auth, hu]
      exact hauth
  · intro hreq hsome
    cases hu : env.request.user with
    | none =>
      exfalso
      have hdeny := dispatch_denied fresh env hreq (by rw [_check_auth, hu])
      rw [hdeny] at hsome
      cases hsome
    | some u =>
      refine ⟨u, rfl, ?_⟩
      by_cases hauth : u.is_authenticated = true
      · exact hauth
      · exfalso
        have hfalse : _check_auth env.request = false := by
          rw [_check_auth, hu]
          simpa using hauth
        have hdeny := dispatch_denied fresh env hreq hfalse
        rw [hdeny] at hsome
        cases hsome

/-- Witness for C10 at concrete inputs: the credential-free request object is
rejected without raising, and an authenticated exchange exposes its
principal. -/
theorem C10_check_auth_total_witness :
    _check_auth sampleRequestNoUser = false
    ∧ ∃ u : UserModel, sampleRequestAuthed.user = some u ∧ u.is_authenticated = true :=
  ⟨(C10_check_auth_total sampleRequestNoUser 0
      { plugin := none, request := sampleRequestAuthed,
        engine := .completes [], pendingAfter := [] }).1 rfl,
   (C10_check_auth_total sampleRequestNoUser 0
      { plugin := none, request := sampleRequestAuthed,
        engine := .completes [], pendingAfter := [] }).2.2 rfl (by decide)⟩

/-- C4: for every exchange that completes without raising, the response
status equals the status recorded by the outbound channel (default 500 when
no start event was ever received), the response body is the concatenation,
in arrival order, of all body-event payloads, every accumulated header is
set on the web response with name and value latin-1 decoded (stated for
accumulated header lists without case-insensitive name clashes, since a
later `__setitem__` of the same name overwrites), and latin-1 decoding is
byte-for-byte inverse to the encoding. -/
theorem C4_success_assembly (fresh : Nat) (env : DispatchEnv)
    (events : List AsgiMessage)
    (heng : env.engine = .completes events)
    (hallow : readRequireAuth env.plugin = false ∨ _check_auth env.request = true) :
    (dispatch fresh env).1.response.status = ((lastStart events).map Prod.fst).getD 500
    ∧ (dispatch fresh env).1.response.body = .bytes (bodyConcat events)
    ∧ ((((lastStart events).map Prod.snd).getD []).Pairwise
          (fun a b => pyLower (latin1Decode a.1) ≠ pyLower (latin1Decode b.1)) →
        ∀ kv ∈ ((lastStart events).map Prod.snd).getD [],
          (latin1Decode kv.1, latin1Decode kv.2) ∈ (dispatch fresh env).1.response.headers)
    ∧ (∀ bs : ByteStr, (∀ b ∈ bs, b < 55296) → latin1Encode (latin1Decode bs) = bs) := by
  have hd := dispatch_not_denied fresh env hallow
  have hresp1 : (dispatch fresh env).1.response = _handle_mcp_request events := by
    rw [hd, heng]
  have hresp : (dispatch fresh env).1.response =
      assembleResponse { response_started := lastStart events
                         response_body := bodyConcat events } := by
    rw [hresp1]
    unfold _handle_mcp_request
    rw [foldl_send_eq events {}]
    simp [option_elim_none_some]
  refine ⟨by rw [hresp]; rfl, by rw [hresp]; rfl, ?_, fun bs h => latin1Encode_latin1Decode bs h⟩
  intro hnodup kv hkv
  rw [hresp]
  show (latin1Decode kv.1, latin1Decode kv.2) ∈
    (((lastStart events).map Prod.snd).getD []).foldl
      (fun hs p => setHeader hs (latin1Decode p.1) (latin1Decode p.2))
      httpResponseDefaultHeaders
  have hfold :
      ((((lastStart events).map Prod.snd).getD []).map
          (fun p => (latin1Decode p.1, latin1Decode p.2))).foldl
        (fun hs p => setHeader hs p.1 p.2) httpResponseDefaultHeaders
      = (((lastStart events).map Prod.snd).getD []).foldl
        (fun hs p => setHeader hs (latin1Decode p.1) (latin1Decode p.2))
        httpResponseDefaultHeaders := by
    rw [List.foldl_map]
  rw [← hfold]
  refine mem_foldl_setHeader _ ?_ _ _ ?_
  · exact List.pairwise_map.mpr hnodup
  · exact List.mem_map.mpr ⟨kv, hkv, rfl⟩

/-- Witness for C4 at a concrete input: a completed exchange with one start
event and two body chunks yields that status, the concatenated body, and the
decoded header on the response. -/
theorem C4_success_assembly_witness :
    (dispatch 0
      { plugin := some (.ok false), request := sampleRequestNoUser,
        engine := .completes
          [.start 200 [(latin1Encode "content-type", latin1Encode "application/json")],
           .body [104, 105], .body [33]],
        pendingAfter := [] }).1.response.status = 200
    ∧ (dispatch 0
      { plugin := some (.ok false), request := sampleRequestNoUser,
        engine := .completes
          [.start 200 [(latin1Encode "content-type", latin1Encode "application/json")],
           .body [104, 105], .body [33]],
        pendingAfter := [] }).1.response.body = .bytes [104, 105, 33]
    ∧ ("content-type", "application/json") ∈
        (dispatch 0
          { plugin := some (.ok false), request := sampleRequestNoUser,
            engine := .completes
              [.start 200 [(latin1Encode "content-type", latin1Encode "application/json")],
               .body [104, 105], .body [33]],
            pendingAfter := [] }).1.response.headers := by
  have h := C4_success_assembly 0
    { plugin := some (.ok false), request := sampleRequestNoUser,
      engine := .completes
        [.start 200 [(latin1Encode "content-type", latin1Encode "application/json")],
         .body [104, 105], .body [33]],
      pendingAfter := [] }
    [.start 200 [(latin1Encode "content-type", latin1Encode "application/json")],
     .body [104, 105], .body [33]]
    rfl (Or.inl rfl)
  refine ⟨by rw [h.1]; decide, by rw [h.2.1]; decide, ?_⟩
  have hmem := h.2.2.1 (by decide)
    (latin1Encode "content-type", latin1Encode "application/json") (by decide)
  have hk : latin1Decode (latin1Encode "content-type") = "content-type" := by decide
  have hv : latin1Decode (latin1Encode "application/json") = "application/json" := by decide
  rw [hk, hv] at hmem
  exact hmem

/-- Environment with two start events in one exchange, used to settle C5. -/
def twoStartEnv : DispatchEnv :=
  { plugin := some (.ok false)
    request := sampleRequestNoUser
    engine := .completes
      [.start 200 [(latin1Encode "x-first", latin1Encode "1")],
       .start 404 [(latin1Encode "x-second", latin1Encode "2")]]
    pendingAfter := [] }

/-- Counterexample to C5 as stated: when the engine delivers two start
events, the outbound channel records the status and headers of the SECOND
start event, not the first — dict item assignment in the `send` closure
overwrites, so later start events do change the recorded status/headers. -/
theorem C5_counterexample :
    ([AsgiMessage.start 200 [(latin1Encode "x-first", latin1Encode "1")],
      AsgiMessage.start 404 [(latin1Encode "x-second", latin1Encode "2")]].foldl
        send {}).response_started
      = some (404, [(latin1Encode "x-second", latin1Encode "2")])
    ∧ ¬(([AsgiMessage.start 200 [(latin1Encode "x-first", latin1Encode "1")],
      AsgiMessage.start 404 [(latin1Encode "x-second", latin1Encode "2")]].foldl
        send {}).response_started
      = some (200, [(latin1Encode "x-first", latin1Encode "1")]))
    ∧ (dispatch 0 twoStartEnv).1.response.status = 404
    ∧ ¬((dispatch 0 twoStartEnv).1.response.status = 200) := by
  refine ⟨by decide, by decide, by decide, by decide⟩

/-- C5 amended: if the engine delivers more than one start event within a
single exchange, the status and headers recorded by the outbound channel are
those of the LAST start event (later start events overwrite earlier ones),
and the response status is that last status. -/
theorem C5_last_start_wins (fresh : Nat) (env : DispatchEnv)
    (events : List AsgiMessage) (status : Nat)
    (headers : List (ByteStr × ByteStr))
    (heng : env.engine = .completes events)
    (hlast : lastStart events = some (status, headers))
    (hallow : readRequireAuth env.plugin = false ∨ _check_auth env.request = true) :
    (events.foldl send {}).response_started = some (status, headers)
    ∧ (dispatch fresh env).1.response.status = status := by
  have hfold := foldl_send_eq events {}
  constructor
  · rw [hfold]
    simp [hlast]
  · have hd := dispatch_not_denied fresh env hallow
    have hresp1 : (dispatch fresh env).1.response = _handle_mcp_request events := by
      rw [hd, heng]
    rw [hresp1]
    unfold _handle_mcp_request
    rw [hfold]
    simp [assembleResponse, option_elim_none_some, hlast]

/-- Witness for C5 amended, at the two-start input: the recorded pair is the
second one and the response status is 404. -/
theorem C5_last_start_wins_witness :
    ([AsgiMessage.start 200 [(latin1Encode "x-first", latin1Encode "1")],
      AsgiMessage.start 404 [(latin1Encode "x-second", latin1Encode "2")]].foldl
        send {}).response_started
      = some (404, [(latin1Encode "x-second", latin1Encode "2")])
    ∧ (dispatch 0 twoStartEnv).1.response.status = 404 :=
  C5_last_start_wins 0 twoStartEnv
    [.start 200 [(latin1Encode "x-first", latin1Encode "1")],
     .start 404 [(latin1Encode "x-second", latin1Encode "2")]]
    404 [(latin1Encode "x-second", latin1Encode "2")]
    rfl (by decide) (Or.inl rfl)

theorem scope_mapped_name_ne (request : HttpRequest) :
    ∀ e ∈ (request.headers.filter (fun kv => (pyLower kv.1) ≠ "content-length")).map
        (fun kv => (latin1Encode (pyLower kv.1), latin1Encode kv.2)),
      e.1 ≠ latin1Encode "content-length" := by
  intro e he
  rcases List.mem_map.mp he with ⟨kv, hkv, rfl⟩
  intro hcontra
  have heq := latin1Encode_inj hcontra
  have hne := (List.mem_filter.mp hkv).2
  exact (of_decide_eq_true hne) heq

/-- C6: the scope built for the engine carries headers in which every name is
lower-cased (no ASCII uppercase byte remains) and latin-1 encoded (one byte
per character), any original content-length header is gone — exactly one
content-length entry remains, holding the decimal byte length of the actual
body — and the relative order of all other headers from the source request
is preserved. -/
theorem C6_scope_headers (request : HttpRequest) :
    ((_build_asgi_scope request).headers.countP
        (fun e => e.1 = latin1Encode "content-length")) = 1
    ∧ (latin1Encode "content-length", latin1Encode (toString request.body.length))
        ∈ (_build_asgi_scope request).headers
    ∧ (∀ e ∈ (_build_asgi_scope request).headers, ∀ b ∈ e.1, ¬(65 ≤ b ∧ b ≤ 90))
    ∧ (_build_asgi_scope request).headers.filter
        (fun e => e.1 ≠ latin1Encode "content-length")
      = (request.headers.filter (fun kv => (pyLower kv.1) ≠ "content-length")).map
          (fun kv => (latin1Encode (pyLower kv.1), latin1Encode kv.2))
    ∧ (∀ s : String, (latin1Encode s).length = s.length) := by
  have hS : (_build_asgi_scope request).headers =
      ((request.headers.filter (fun kv => (pyLower kv.1) ≠ "content-length")).map
        (fun kv => (latin1Encode (pyLower kv.1), latin1Encode kv.2)))
      ++ [(latin1Encode "content-length",
           latin1Encode (toString request.body.length))] := rfl
  refine ⟨?_, ?_, ?_, ?_, latin1Encode_length⟩
  · rw [hS, List.countP_append]
    have hA : ((request.headers.filter (fun kv => (pyLower kv.1) ≠ "content-length")).map
        (fun kv => (latin1Encode (pyLower kv.1), latin1Encode kv.2))).countP
          (fun e => e.1 = latin1Encode "content-length") = 0 := by
      rw [List.countP_eq_zero]
      intro e he
      have := scope_mapped_name_ne request e he
      simpa using this
    rw [hA]
    simp
  · rw [hS]
    exact List.mem_append_right _ (List.mem_singleton.mpr rfl)
  · rw [hS]
    intro e he
    rcases List.mem_append.mp he with hA | hcl
    · rcases List.mem_map.mp hA with ⟨kv, _, rfl⟩
      intro b hb
      rcases List.mem_map.mp hb with ⟨c, hc, rfl⟩
      rcases List.mem_map.mp hc with ⟨c0, _, rfl⟩
      exact toLower_toNat_not_upper c0
    · have he1 : e.1 = latin1Encode "content-length" := by
        rw [List.mem_singleton.mp hcl]
      rw [he1]
      decide
  · rw [hS, List.filter_append]
    have hA : ((request.headers.filter (fun kv => (pyLower kv.1) ≠ "content-length")).map
        (fun kv => (latin1Encode (pyLower kv.1), latin1Encode kv.2))).filter
          (fun e => e.1 ≠ latin1Encode "content-length")
        = (request.headers.filter (fun kv => (pyLower kv.1) ≠ "content-length")).map
            (fun kv => (latin1Encode (pyLower kv.1), latin1Encode kv.2)) := by
      rw [List.filter_eq_self]
      intro e he
      exact decide_eq_true (scope_mapped_name_ne request e he)
    rw [hA]
    simp

/-- Witness for C6 at a concrete request: the recomputed content-length entry
is present, and applying the no-uppercase-byte conjunct to the byte 99 of
that entry discharges its membership hypotheses. -/
theorem C6_scope_headers_witness :
    (latin1Encode "content-length",
      latin1Encode (toString sampleRequestAuthed.body.length))
        ∈ (_build_asgi_scope sampleRequestAuthed).headers
    ∧ ¬(65 ≤ 99 ∧ 99 ≤ 90) :=
  ⟨(C6_scope_headers sampleRequestAuthed).2.1,
   (C6_scope_headers sampleRequestAuthed).2.2.1
     (latin1Encode "content-length", latin1Encode "2") (by decide) 99 (by decide)⟩

/-- C7: on every exit path — success, timeout, or exception — the per-request
loop, when one was created, ends closed exactly once with every task that was
still pending cancelled and none leaked; a loop is created exactly when the
cleanup ran; and `_cancel_pending_tasks` is total, returning the loop
unchanged when no task is pending and still cancelling every task when the
drain raises (the exception is suppressed). -/
theorem C7_cleanup (fresh : Nat) (env : DispatchEnv) (loop : LoopState) :
    (∀ l : LoopState, (dispatch fresh env).1.loopFinal = some l →
        l.closed = true ∧ l.closeCount = 1
        ∧ l.tasks.length = env.pendingAfter.length
        ∧ (∀ t ∈ l.tasks, t.cancelled = true))
    ∧ ((dispatch fresh env).1.loopFinal.isSome = (dispatch fresh env).1.loopId.isSome)
    ∧ (loop.tasks = [] → _cancel_pending_tasks loop = loop)
    ∧ (loop.tasks.any (fun t => t.raisesOnDrain) = true →
        (_cancel_pending_tasks loop).tasks =
          loop.tasks.map (fun t => { t with cancelled := true }))
    ∧ (closeLoop (_cancel_pending_tasks loop)).closed = true := by
  refine ⟨?_, ?_, cancel_tasks_empty loop, cancel_tasks_suppressed loop, rfl⟩
  · intro l hl
    rcases dispatch_guard_cases env with ⟨h1, h2⟩ | hallow
    · rw [dispatch_denied fresh env h1 h2] at hl
      cases hl
    · rw [dispatch_not_denied fresh env hallow] at hl
      have hl2 : closeLoop (_cancel_pending_tasks { tasks := env.pendingAfter }) = l :=
        Option.some.inj hl
      subst hl2
      refine ⟨rfl, ?_, ?_, ?_⟩
      · show (_cancel_pending_tasks { tasks := env.pendingAfter }).closeCount + 1 = 1
        rw [cancel_tasks_closeCount]
      · show (_cancel_pending_tasks { tasks := env.pendingAfter }).tasks.length = _
        exact cancel_tasks_length { tasks := env.pendingAfter }
      · exact fun t ht => cancel_tasks_cancelled { tasks := env.pendingAfter } t ht
  · rcases dispatch_guard_cases env with ⟨h1, h2⟩ | hallow
    · rw [dispatch_denied fresh env h1 h2]
      rfl
    · rw [dispatch_not_denied fresh env hallow]
      rfl

/-- Witness for C7 at concrete inputs: the final loop of a completed exchange
with one pending task is closed once with the task cancelled, and cleanup of
a loop with zero pending tasks returns it unchanged. -/
theorem C7_cleanup_witness :
    (({ tasks := [{ cancelled := true, awaited := true, raisesOnDrain := false }],
        closed := true, closeCount := 1 } : LoopState).closed = true
      ∧ ({ tasks := [{ cancelled := true, awaited := true, raisesOnDrain := false }],
            closed := true, closeCount := 1 } : LoopState).closeCount = 1)
    ∧ _cancel_pending_tasks { tasks := [], closed := false, closeCount := 0 } =
        { tasks := [], closed := false, closeCount := 0 } :=
  ⟨(fun h => ⟨h.1, h.2.1⟩)
    ((C7_cleanup 0
      { plugin := some (.ok false), request := sampleRequestNoUser,
        engine := .completes [],
        pendingAfter := [{ cancelled := false, awaited := false, raisesOnDrain := false }] }
      { tasks := [], closed := false, closeCount := 0 }).1
      { tasks := [{ cancelled := true, awaited := true, raisesOnDrain := false }],
        closed := true, closeCount := 1 } (by decide)),
   (C7_cleanup 0
      { plugin := some (.ok false), request := sampleRequestNoUser,
        engine := .completes [],
        pendingAfter := [{ cancelled := false, awaited := false, raisesOnDrain := false }] }
      { tasks := [], closed := false, closeCount := 0 }).2.2.1 rfl⟩

/-- C8: handling the same well-formed request twice produces two independent
sessions and two independent event loops (distinct freshly allocated
identities) with identical responses, the sequential handler threads nothing
but the allocation counter between requests, and the response to the second
request is the same whether or not a first request was ever processed. -/
theorem C8_independent_requests (fresh fresh2 : Nat) (env envOther : DispatchEnv) :
    handleSequence fresh [env, env] =
        [(dispatch fresh env).1, (dispatch (dispatch fresh env).2 env).1]
    ∧ (dispatch fresh env).1.response = (dispatch (dispatch fresh env).2 env).1.response
    ∧ ((readRequireAuth env.plugin = false ∨ _check_auth env.request = true) →
        ((dispatch fresh env).1.sessionId.isSome = true
          ∧ (dispatch (dispatch fresh env).2 env).1.sessionId.isSome = true
          ∧ (dispatch fresh env).1.sessionId ≠ (dispatch (dispatch fresh env).2 env).1.sessionId
          ∧ (dispatch fresh env).1.loopId ≠ (dispatch (dispatch fresh env).2 env).1.loopId))
    ∧ ((handleSequence fresh2 [envOther, env]).getLast?.map DispatchResult.response
        = (handleSequence fresh [env]).getLast?.map DispatchResult.response) := by
  refine ⟨rfl, dispatch_response_counter_free _ _ env, ?_, ?_⟩
  · intro hallow
    have h1 := dispatch_not_denied fresh env hallow
    have hc : (dispatch fresh env).2 = fresh + 2 := by rw [h1]
    have h2 := dispatch_not_denied (fresh + 2) env hallow
    rw [hc, h1, h2]
    refine ⟨rfl, rfl, ?_, ?_⟩
    · intro h
      have := Option.some.inj h
      omega
    · intro h
      have := Option.some.inj h
      omega
  · show some ((dispatch (dispatch fresh2 envOther).2 env).1.response)
        = some ((dispatch fresh env).1.response)
    rw [dispatch_response_counter_free ((dispatch fresh2 envOther).2) fresh env]

/-- Witness for C8 at a concrete input: the same authenticated request handled
twice yields distinct session identities. -/
theorem C8_independent_requests_witness :
    (dispatch 0
      { plugin := some (.ok true), request := sampleRequestAuthed,
        engine := .completes [], pendingAfter := [] }).1.sessionId
      ≠ (dispatch
          (dispatch 0
            { plugin := some (.ok true), request := sampleRequestAuthed,
              engine := .completes [], pendingAfter := [] }).2
          { plugin := some (.ok true), request := sampleRequestAuthed,
            engine := .completes [], pendingAfter := [] }).1.sessionId :=
  ((C8_independent_requests 0 0
      { plugin := some (.ok true), request := sampleRequestAuthed,
        engine := .completes [], pendingAfter := [] }
      { plugin := some (.ok true), request := sampleRequestAuthed,
        engine := .completes [], pendingAfter := [] }).2.2.1
    (Or.inr (by decide))).2.2.1

end McpTransport
